import Mathlib

/-!
Verification development for the djaploy deployment tool.

The definitions below are a shallow embedding of the Python sources
(config.py, deploy.py, modules/core.py).  Python dictionaries over
heterogeneous values are modelled by the inductive type PyVal together
with association lists in insertion order; dict-literal construction
with splatting is modelled by dictLit, which folds dictInsert over the
written entries, matching the override-on-duplicate-key semantics of
Python dict displays.  Exceptions are modelled with Except, the process
environment (temporary files, spawned commands, working directory) with
an explicit SysState record, and external effects (subprocess exit
codes, the module loader, artifact creation, remote fact queries) as
parameters ranging over every possible outcome.
-/

namespace Djaploy

/-- The single-quote character, built from its code point. -/
def sqChar : Char := Char.ofNat 39

/-- The single-quote character as a string. -/
def sq : String := String.singleton sqChar

/-- The double-quote character. -/
def dqChar : Char := '"'

/-- Model of a Python value as it appears in host data, backup
configurations and generated inventories. -/
inductive PyVal where
  | none : PyVal
  | bool : Bool → PyVal
  | int : Int → PyVal
  | str : String → PyVal
  | list : List PyVal → PyVal
  | dict : List (String × PyVal) → PyVal

/-- Python dict insertion: replace the value kept at an existing key
(keeping its position), otherwise append the new binding at the end. -/
def dictInsert : List (String × PyVal) → String → PyVal → List (String × PyVal)
  | [], k, v => [(k, v)]
  | p :: t, k, v => if p.1 = k then (k, v) :: t else p :: dictInsert t k v

/-- Python dict display: insert the written entries left to right, so a
later entry for a key overrides an earlier one. -/
def dictLit (entries : List (String × PyVal)) : List (String × PyVal) :=
  entries.foldl (fun d p => dictInsert d p.1 p.2) []

/-- Lookup in a dict modelled as an association list (first match; a
well-formed dict has at most one binding per key). -/
def dictGet : List (String × PyVal) → String → Option PyVal
  | [], _ => Option.none
  | p :: t, k => if p.1 = k then Option.some p.2 else dictGet t k

/-- Escape one character the way repr of a Python string does, given
the quote character chosen for the literal. -/
def pyEscapeChar (q : Char) (c : Char) : String :=
  if c = '\\' then "\\\\"
  else if c = q then "\\" ++ String.singleton q
  else if c = '\n' then "\\n"
  else if c = '\r' then "\\r"
  else if c = '\t' then "\\t"
  else String.singleton c

/-- Model of repr for a Python string: single quotes by default, double
quotes when the text holds a single quote but no double quote. -/
def pyReprString (s : String) : String :=
  let q := if s.contains sqChar && !(s.contains dqChar) then dqChar else sqChar
  String.singleton q ++ String.join (s.toList.map (pyEscapeChar q)) ++ String.singleton q

mutual

/-- Model of repr for a Python value. -/
def pyRepr : PyVal → String
  | .none => "None"
  | .bool true => "True"
  | .bool false => "False"
  | .int n => toString n
  | .str s => pyReprString s
  | .list l => "[" ++ pyReprList l ++ "]"
  | .dict d => "\x7b" ++ pyReprEntries d ++ "\x7d"

/-- Comma-separated repr of the elements of a Python list. -/
def pyReprList : List PyVal → String
  | [] => ""
  | [v] => pyRepr v
  | v :: rest => pyRepr v ++ ", " ++ pyReprList rest

/-- Comma-separated repr of the entries of a Python dict. -/
def pyReprEntries : List (String × PyVal) → String
  | [] => ""
  | [(k, v)] => pyReprString k ++ ": " ++ pyRepr v
  | (k, v) :: rest => pyReprString k ++ ": " ++ pyRepr v ++ ", " ++ pyReprEntries rest

end

/-- Truthiness of an optional Python string: None and the empty string
are falsy. -/
def pyTruthyStr (o : Option String) : Bool :=
  match o with
  | Option.none => false
  | Option.some s => !(s == "")

/-- A field is missing in the sense of the spec when it is unset or
empty, that is, not truthy. -/
def optMissing (o : Option String) : Bool :=
  match o with
  | Option.none => true
  | Option.some s => s == ""

/-- Python or on an optional string with a string default, as in
the expression app_hostname or ssh_host: a falsy left operand
(None or the empty string) yields the right operand. -/
def pyOrStr (o : Option String) (d : String) : String :=
  match o with
  | Option.none => d
  | Option.some s => if s == "" then d else s

/-- Model of pathlib Path conversion on a string.  The only
normalisation that matters to the claims is that Path of the empty
string is the dot path, so a stored path string is never empty. -/
def pathOfString (s : String) : String :=
  if s = "" then "." else s

/-- BackupConfig from config.py: backup transport settings of a host. -/
structure BackupConfig where
  enabled : Bool := true
  type : String := "sftp"
  host : Option String := Option.none
  user : Option String := Option.none
  password : Option String := Option.none
  port : Int := 22
  s3_endpoint : Option String := Option.none
  s3_region : Option String := Option.none
  s3_access_key : Option String := Option.none
  s3_secret_key : Option String := Option.none
  s3_bucket : Option String := Option.none
  backup_path : String := "/backups"
  retention_days : Int := 30
  databases : List String := ["default.db"]
  backup_media : Bool := true
  schedule : String := "0 2 * * *"

/-- Optional string as a Python value. -/
def optStrVal (o : Option String) : PyVal :=
  match o with
  | Option.none => PyVal.none
  | Option.some s => PyVal.str s

/-- dataclasses.asdict on a BackupConfig: a dict of its fields in
declaration order. -/
def BackupConfig.asdict (b : BackupConfig) : PyVal :=
  PyVal.dict [
    ("enabled", PyVal.bool b.enabled),
    ("type", PyVal.str b.type),
    ("host", optStrVal b.host),
    ("user", optStrVal b.user),
    ("password", optStrVal b.password),
    ("port", PyVal.int b.port),
    ("s3_endpoint", optStrVal b.s3_endpoint),
    ("s3_region", optStrVal b.s3_region),
    ("s3_access_key", optStrVal b.s3_access_key),
    ("s3_secret_key", optStrVal b.s3_secret_key),
    ("s3_bucket", optStrVal b.s3_bucket),
    ("backup_path", PyVal.str b.backup_path),
    ("retention_days", PyVal.int b.retention_days),
    ("databases", PyVal.list (b.databases.map PyVal.str)),
    ("backup_media", PyVal.bool b.backup_media),
    ("schedule", PyVal.str b.schedule)]

/-- BackupConfig.validate from config.py.  A raised ValueError is an
error result; the Python method otherwise returns True. -/
def BackupConfig.validate (b : BackupConfig) : Except String Bool :=
  if b.type = "sftp" then
    if !(pyTruthyStr b.host && pyTruthyStr b.user) then
      Except.error "SFTP backup requires host and user"
    else
      Except.ok true
  else if b.type = "s3" then
    if !(pyTruthyStr b.s3_endpoint && pyTruthyStr b.s3_access_key &&
         pyTruthyStr b.s3_secret_key && pyTruthyStr b.s3_bucket) then
      Except.error "S3 backup requires endpoint, access_key, secret_key, and bucket"
    else
      Except.ok true
  else
    Except.error ("Invalid backup type: " ++ b.type)

/-- HostConfig from config.py: one deployment target. -/
structure HostConfig where
  name : String
  ssh_host : String
  ssh_user : String := "deploy"
  ssh_port : Int := 22
  app_user : String := "app"
  app_hostname : Option String := Option.none
  env : String := "production"
  services : List String := []
  timer_services : List String := []
  domains : List PyVal := []
  backup : Option BackupConfig := Option.none
  data : List (String × PyVal) := []

/-- The inner data dict built by HostConfig.to_pyinfra_host: the seven
built-in entries followed by the splatted free-form data entries. -/
def HostConfig.pyinfraHostData (h : HostConfig) : List (String × PyVal) :=
  dictLit ([
    ("app_user", PyVal.str h.app_user),
    ("app_hostname", PyVal.str (pyOrStr h.app_hostname h.ssh_host)),
    ("env", PyVal.str h.env),
    ("services", PyVal.list (h.services.map PyVal.str)),
    ("timer_services", PyVal.list (h.timer_services.map PyVal.str)),
    ("domains", PyVal.list h.domains),
    ("backup", match h.backup with
               | Option.some b => b.asdict
               | Option.none => PyVal.none)] ++ h.data)

/-- HostConfig.to_pyinfra_host from config.py: the pyinfra host dict. -/
def HostConfig.to_pyinfra_host (h : HostConfig) : List (String × PyVal) :=
  dictLit [
    ("name", PyVal.str h.name),
    ("ssh_host", PyVal.str h.ssh_host),
    ("ssh_user", PyVal.str h.ssh_user),
    ("ssh_port", PyVal.int h.ssh_port),
    ("data", PyVal.dict h.pyinfraHostData)]

/-- HostConfig.get_required_modules from config.py: the rclone module
when backup is configured and enabled. -/
def HostConfig.get_required_modules (h : HostConfig) : List String :=
  let modules : List String := []
  match h.backup with
  | Option.some b => if b.enabled then modules ++ ["djaploy.modules.rclone"] else modules
  | Option.none => modules

/-- Whether a host carries an enabled backup configuration. -/
def hostBackupEnabled (h : HostConfig) : Bool :=
  match h.backup with
  | Option.some b => b.enabled
  | Option.none => false

/-- DjaployConfig from config.py, in its state after construction. -/
structure DjaployConfig where
  project_name : String
  project_dir : Option String := Option.none
  git_dir : Option String := Option.none
  djaploy_dir : Option String := Option.none
  manage_py_path : Option String := Option.none
  app_user : String := "app"
  ssh_user : String := "deploy"
  python_version : String := "3.11"
  python_compile : Bool := false
  modules : List String := ["djaploy.modules.base", "djaploy.modules.nginx", "djaploy.modules.systemd"]
  module_configs : List (String × List (String × PyVal)) := []
  artifact_dir : String := "deployment"
  ssl_cert_path : Option String := Option.none
  ssl_key_path : Option String := Option.none
  services : List String := []
  timer_services : List String := []
  hosts : Option (List HostConfig) := Option.none

/-- One step of the module-appending loop in DjaployConfig
__post_init__: append each module the host requires unless already
present. -/
def addRequiredModules (ms : List String) (h : HostConfig) : List String :=
  (h.get_required_modules).foldl
    (fun acc m => if m ∈ acc then acc else acc ++ [m]) ms

/-- The modules list produced by DjaployConfig.__post_init__ from the
given modules and hosts arguments. -/
def postInitModules (modules : List String) (hosts : Option (List HostConfig)) :
    List String :=
  match hosts with
  | Option.none => modules
  | Option.some hs => hs.foldl addRequiredModules modules

/-- Construction of a DjaployConfig, including the __post_init__
processing: path arguments are converted to Path objects and the
modules required by the hosts are appended. -/
def mkDjaployConfig (project_name : String) (project_dir git_dir djaploy_dir manage_py_path : Option String)
    (app_user ssh_user python_version : String) (python_compile : Bool)
    (modules : List String) (module_configs : List (String × List (String × PyVal)))
    (artifact_dir : String) (ssl_cert_path ssl_key_path : Option String)
    (services timer_services : List String) (hosts : Option (List HostConfig)) :
    DjaployConfig :=
  { project_name := project_name
    project_dir := project_dir.map pathOfString
    git_dir := git_dir.map pathOfString
    djaploy_dir := djaploy_dir.map pathOfString
    manage_py_path := manage_py_path.map pathOfString
    app_user := app_user
    ssh_user := ssh_user
    python_version := python_version
    python_compile := python_compile
    modules := postInitModules modules hosts
    module_configs := module_configs
    artifact_dir := artifact_dir
    ssl_cert_path := ssl_cert_path
    ssl_key_path := ssl_key_path
    services := services
    timer_services := timer_services
    hosts := hosts }

/-- DjaployConfig.validate from config.py.  The truthiness tests are
those of Python: a string is falsy exactly when empty, and an optional
Path is falsy exactly when it is None, since Path objects have no
emptiness notion. -/
def DjaployConfig.validate (c : DjaployConfig) : Except String Bool :=
  let errors : List String := []
  let errors := if c.project_name = "" then errors ++ ["project_name is required"] else errors
  let errors := if c.app_user = "" then errors ++ ["app_user is required"] else errors
  let errors := if c.djaploy_dir = Option.none then errors ++ ["djaploy_dir is required"] else errors
  if errors ≠ [] then
    Except.error ("Configuration validation failed: " ++ String.intercalate ", " errors)
  else
    Except.ok true

/-- A Python exception as propagated by deploy.py. -/
inductive PyErr where
  | valueError : String → PyErr
  | typeError : PyErr
  | calledProcessError : Nat → List String → PyErr
  | loaderError : PyErr
  | artifactError : PyErr

/-- A loaded module instance as seen by the script generators: its
name attribute, its class name, the module path of its class and the
rendered text of its constructor config argument. -/
structure PyModule where
  name : String
  className : String
  modulePath : String
  configRepr : String

/-- Join a list of strings, used to describe the strings accumulated by
the Python += loops of the script generators. -/
def strJoin : List String → String
  | [] => ""
  | s :: rest => s ++ strJoin rest

/-- The import line the generators emit for one loaded module. -/
def moduleImportLine (m : PyModule) : String :=
  "from " ++ m.modulePath ++ " import " ++ m.className ++ "\n"

/-- The fixed head of the generated configure script. -/
def configureScriptHead : String :=
  "\nfrom pyinfra import host\n\n# Import module implementations\n"

/-- The fixed middle of the generated configure script. -/
def configureScriptMid : String :=
  "\n# Get configuration from host data\nconfig = host.data.config\nproject_config = host.data.project_config\n\n# Run module configurations\n"

/-- The per-module block of the generated configure script. -/
def configureModuleBlock (m : PyModule) : String :=
  "\n# Configure " ++ m.name ++ "\nmodule = " ++ m.className ++ "(" ++ m.configRepr ++ ")\nmodule.pre_configure(host.data, project_config)\nmodule.configure_server(host.data, project_config)\nmodule.post_configure(host.data, project_config)\n"

/-- The generate-configure-script function of deploy.py, with the
Python += loops rendered as left folds over the module list. -/
def generateConfigureScript (config : DjaployConfig) (hosts : List HostConfig)
    (modules : List PyModule) : String :=
  let script := configureScriptHead
  let script := modules.foldl (fun s m => s ++ moduleImportLine m) script
  let script := script ++ configureScriptMid
  modules.foldl (fun s m => s ++ configureModuleBlock m) script

/-- The fixed head of the generated deploy script. -/
def deployScriptHead : String :=
  "\nfrom pyinfra import host\nfrom pathlib import Path\n\n# Import module implementations\n"

/-- The middle of the generated deploy script, interpolating the
artifact path. -/
def deployScriptMid (artifactPath : String) : String :=
  "\n# Get configuration from host data\nconfig = host.data.config\nproject_config = host.data.project_config\nartifact_path = Path(\"" ++ artifactPath ++ "\")\n\n# Run module deployments\n"

/-- The per-module block of the generated deploy script. -/
def deployModuleBlock (m : PyModule) : String :=
  "\n# Deploy " ++ m.name ++ "\nmodule = " ++ m.className ++ "(" ++ m.configRepr ++ ")\nmodule.pre_deploy(host.data, project_config, artifact_path)\nmodule.deploy(host.data, project_config, artifact_path)\nmodule.post_deploy(host.data, project_config, artifact_path)\n"

/-- The generate-deploy-script function of deploy.py. -/
def generateDeployScript (config : DjaployConfig) (hosts : List HostConfig)
    (modules : List PyModule) (artifactPath : String) : String :=
  let script := deployScriptHead
  let script := modules.foldl (fun s m => s ++ moduleImportLine m) script
  let script := script ++ deployScriptMid artifactPath
  modules.foldl (fun s m => s ++ deployModuleBlock m) script

/-- The create-inventory function of deploy.py: the hosts rendered as a
Python list literal, one interpolated dict per host in list order. -/
def createInventory (hosts : List HostConfig) : String :=
  let inv := "hosts = [\n"
  let inv := hosts.foldl
    (fun acc h => acc ++ ("    " ++ pyRepr (PyVal.dict h.to_pyinfra_host) ++ ",\n")) inv
  inv ++ "]\n"

/-- The observable process environment threaded through deploy.py:
a counter from which fresh temporary names are drawn, the set of
temporary files currently on disk, the log of file writes, the log of
spawned commands and the working directory. -/
structure SysState where
  tempCounter : Nat
  tempFiles : List String
  fileWrites : List (String × String)
  commands : List (List String)
  cwd : String

/-- The fresh path handed out by the n-th NamedTemporaryFile call. -/
def tmpName (n : Nat) : String :=
  "/tmp/tmp" ++ toString n ++ ".py"

/-- tempfile.NamedTemporaryFile with delete False: write the content to
a fresh path that stays on disk. -/
def newTempFile (content : String) (s : SysState) : String × SysState :=
  let path := tmpName s.tempCounter
  (path, { s with tempCounter := s.tempCounter + 1,
                  tempFiles := s.tempFiles ++ [path],
                  fileWrites := s.fileWrites ++ [(path, content)] })

/-- os.unlink: remove the file at the path. -/
def unlink (path : String) (s : SysState) : SysState :=
  { s with tempFiles := s.tempFiles.erase path }

/-- subprocess.run with check True: log the command; a non-zero exit
status raises CalledProcessError. -/
def runSubprocess (cmd : List String) (exitCode : Nat) (s : SysState) :
    Except PyErr Unit × SysState :=
  let s := { s with commands := s.commands ++ [cmd] }
  if exitCode = 0 then (Except.ok (), s) else (Except.error (PyErr.calledProcessError exitCode cmd), s)

/-- The run-pyinfra function of deploy.py: write the inventory to a
temporary file, run the pyinfra CLI on inventory and script with the
auto-confirm flag, and remove the inventory file in a finally block. -/
def runPyinfra (scriptPath : String) (hosts : List HostConfig) (exitCode : Nat)
    (s : SysState) : Except PyErr Unit × SysState :=
  let inv := createInventory hosts
  let (inventoryPath, s) := newTempFile inv s
  let cmd := ["pyinfra", inventoryPath, scriptPath, "-y"]
  let (r, s) := runSubprocess cmd exitCode s
  let s := unlink inventoryPath s
  (r, s)

/-- The configure-server entry point of deploy.py.  The module loader
lives outside the sources under verification, so its outcome is a
parameter; the pyinfra exit status is likewise a parameter. -/
def configureServer (config : DjaployConfig) (hosts : List HostConfig)
    (loadResult : Except PyErr (List PyModule)) (pyinfraExit : Nat)
    (s : SysState) : Except PyErr Unit × SysState :=
  match config.validate with
  | Except.error e => (Except.error (PyErr.valueError e), s)
  | Except.ok _ =>
    match loadResult with
    | Except.error e => (Except.error e, s)
    | Except.ok modules =>
      let (scriptPath, s) := newTempFile (generateConfigureScript config hosts modules) s
      let (r, s) := runPyinfra scriptPath hosts pyinfraExit s
      let s := unlink scriptPath s
      (r, s)

/-- The run-prepare function of deploy.py: remember the working
directory, chdir into the project directory, run the prepare script,
and chdir back in a finally block.  os.chdir of None raises before the
try block is entered. -/
def runPrepare (prepareScript : String) (config : DjaployConfig) (prepareExit : Nat)
    (s : SysState) : Except PyErr Unit × SysState :=
  let originalDir := s.cwd
  match config.project_dir with
  | Option.none => (Except.error PyErr.typeError, s)
  | Option.some d =>
    let s := { s with cwd := d }
    let (r, s) := runSubprocess ["python", prepareScript] prepareExit s
    let s := { s with cwd := originalDir }
    (r, s)

/-- The tail of deploy-project after the prepare step: write the deploy
script to a temporary file, run pyinfra, and unlink the script in a
finally block. -/
def deployRunPhase (config : DjaployConfig) (hosts : List HostConfig)
    (modules : List PyModule) (artifactPath : String) (pyinfraExit : Nat)
    (s : SysState) : Except PyErr Unit × SysState :=
  let (scriptPath, s) := newTempFile (generateDeployScript config hosts modules artifactPath) s
  let (r, s) := runPyinfra scriptPath hosts pyinfraExit s
  let s := unlink scriptPath s
  (r, s)

/-- The deploy-project entry point of deploy.py.  Artifact creation and
the module loader live outside the sources under verification, so their
outcomes are parameters, as are the existence of prepare.py and the
exit statuses of the two subprocesses.  Joining prepare.py onto a None
project directory raises before anything else happens. -/
def deployProject (config : DjaployConfig) (hosts : List HostConfig)
    (artifactResult : Except PyErr String) (loadResult : Except PyErr (List PyModule))
    (prepareExists : Bool) (prepareExit : Nat) (pyinfraExit : Nat)
    (s : SysState) : Except PyErr Unit × SysState :=
  match config.validate with
  | Except.error e => (Except.error (PyErr.valueError e), s)
  | Except.ok _ =>
    match artifactResult with
    | Except.error e => (Except.error e, s)
    | Except.ok artifactPath =>
      match loadResult with
      | Except.error e => (Except.error e, s)
      | Except.ok modules =>
        match config.project_dir with
        | Option.none => (Except.error PyErr.typeError, s)
        | Option.some pdir =>
          if prepareExists then
            let (r, s1) := runPrepare (pdir ++ "/prepare.py") config prepareExit s
            match r with
            | Except.error e => (Except.error e, s1)
            | Except.ok _ => deployRunPhase config hosts modules artifactPath pyinfraExit s1
          else
            deployRunPhase config hosts modules artifactPath pyinfraExit s

/-- One pyinfra operation issued by the core module, with its name
argument and the fields relevant to the install logic. -/
inductive Op where
  | aptPackages : String → List String → Op
  | serverShell : String → List String → Option String → Bool → Op

/-- The full-version map of CoreModule, with the fallback that appends
a zero patch level. -/
def pythonVersionMap (major_minor : String) : String :=
  if major_minor = "3.11" then "3.11.9"
  else if major_minor = "3.12" then "3.12.7"
  else if major_minor = "3.13" then "3.13.3"
  else major_minor ++ ".0"

/-- The altinstall target path checked by the remote fact query. -/
def pythonInstallPath (major_minor : String) : String :=
  "/usr/local/bin/python" ++ major_minor

/-- The build-dependency package list of CoreModule. -/
def pythonBuildDeps : List String :=
  ["build-essential", "zlib1g-dev", "libncurses5-dev", "libncursesw5-dev",
   "libgdbm-dev", "libnss3-dev", "libssl-dev", "libreadline-dev",
   "libffi-dev", "libsqlite3-dev", "wget", "curl", "llvm",
   "xz-utils", "tk-dev", "libxml2-dev", "libxmlsec1-dev", "liblzma-dev",
   "libbz2-dev"]

/-- The compile-python method of CoreModule as the list of operations it
issues.  The remote Which fact gather is a parameter mapping a queried
path to the optional located binary. -/
def compilePython (version : String) (whichFact : String → Option String) : List Op :=
  let full_version := pythonVersionMap version
  let python_download_url :=
    "https://www.python.org/ftp/python/" ++ full_version ++ "/Python-" ++ full_version ++ ".tar.xz"
  let python_source_dir := "/tmp/Python-" ++ full_version
  let python_install_path := "/usr/local/bin/python" ++ version
  match whichFact python_install_path with
  | Option.none =>
    [Op.aptPackages "Install Python build dependencies" pythonBuildDeps,
     Op.serverShell ("Download Python " ++ full_version ++ " source")
       ["wget -P /tmp " ++ python_download_url,
        "tar -xf /tmp/Python-" ++ full_version ++ ".tar.xz -C /tmp"] Option.none true,
     Op.serverShell ("Configure and compile Python " ++ full_version)
       ["./configure --enable-optimizations --with-ensurepip=install",
        "make -j$(( $(nproc) > 1 ? $(nproc) - 1 : 1 ))"] (Option.some python_source_dir) true,
     Op.serverShell ("Install Python " ++ full_version ++ " using altinstall")
       ["make altinstall"] (Option.some python_source_dir) true,
     Op.serverShell ("Clean up Python " ++ full_version ++ " source files")
       ["rm -f /tmp/Python-" ++ full_version ++ ".tar.xz",
        "rm -rf " ++ python_source_dir] Option.none true]
  | Option.some _ =>
    [Op.serverShell ("Python " ++ full_version ++ " already installed at " ++ python_install_path)
       ["echo " ++ sq ++ "Python " ++ full_version ++ " already installed." ++ sq]
       Option.none false]

/-- The slice of the project-config dict that the install logic of
CoreModule reads: the python version entry and the optional
python compile entry. -/
structure PyProjectConfig where
  python_version : String
  python_compile : Option Bool

/-- The install-python method of CoreModule: dict get of python compile
with default False selects between compile-from-source and the
package-manager install. -/
def installPython (project_config : PyProjectConfig) (whichFact : String → Option String) :
    List Op :=
  let python_version := project_config.python_version
  if project_config.python_compile.getD false then
    compilePython python_version whichFact
  else
    [Op.aptPackages ("Install Python " ++ python_version)
       ["python" ++ python_version, "python" ++ python_version ++ "-dev",
        "python" ++ python_version ++ "-venv", "python3-pip"]]

/-- Occurrence count of a module name in a modules list. -/
def occCount (m : String) (l : List String) : Nat :=
  (l.filter (fun x => x == m)).length

/-- First-some choice on optional values, describing lookup through an
appended dict segment. -/
def orOpt (a b : Option PyVal) : Option PyVal :=
  match a with
  | Option.some v => Option.some v
  | Option.none => b

/-- Freshness of the next two temporary names drawn from a state: the
names handed out by the next two NamedTemporaryFile calls do not
collide with files already present. -/
def tmpFresh (s : SysState) : Prop :=
  tmpName s.tempCounter ∉ s.tempFiles ∧
  tmpName (s.tempCounter + 1) ∉ s.tempFiles ++ [tmpName s.tempCounter]

/-! Specification-side definitions, written from the words of the
spec and of the claims, to be compared with the source embeddings. -/

/-- Claim reading of to_pyinfra_host with the fallback taken literally:
the data entry app_hostname falls back to ssh_host only when
app_hostname is None.  This is the C4 wording under test. -/
def toPyinfraHostNoneFallback (h : HostConfig) : List (String × PyVal) :=
  dictLit [
    ("name", PyVal.str h.name),
    ("ssh_host", PyVal.str h.ssh_host),
    ("ssh_user", PyVal.str h.ssh_user),
    ("ssh_port", PyVal.int h.ssh_port),
    ("data", PyVal.dict (dictLit ([
      ("app_user", PyVal.str h.app_user),
      ("app_hostname", PyVal.str (match h.app_hostname with
        | Option.none => h.ssh_host
        | Option.some a => a)),
      ("env", PyVal.str h.env),
      ("services", PyVal.list (h.services.map PyVal.str)),
      ("timer_services", PyVal.list (h.timer_services.map PyVal.str)),
      ("domains", PyVal.list h.domains),
      ("backup", match h.backup with
        | Option.some b => b.asdict
        | Option.none => PyVal.none)] ++ h.data)))]

/-- Amended reading of to_pyinfra_host: the data entry app_hostname
falls back to ssh_host when app_hostname is None or empty. -/
def toPyinfraHostSpec (h : HostConfig) : List (String × PyVal) :=
  dictLit [
    ("name", PyVal.str h.name),
    ("ssh_host", PyVal.str h.ssh_host),
    ("ssh_user", PyVal.str h.ssh_user),
    ("ssh_port", PyVal.int h.ssh_port),
    ("data", PyVal.dict (dictLit ([
      ("app_user", PyVal.str h.app_user),
      ("app_hostname", PyVal.str (match h.app_hostname with
        | Option.none => h.ssh_host
        | Option.some a => if a = "" then h.ssh_host else a)),
      ("env", PyVal.str h.env),
      ("services", PyVal.list (h.services.map PyVal.str)),
      ("timer_services", PyVal.list (h.timer_services.map PyVal.str)),
      ("domains", PyVal.list h.domains),
      ("backup", match h.backup with
        | Option.some b => b.asdict
        | Option.none => PyVal.none)] ++ h.data)))]

/-- Lookup of one key of the inner data dict of a rendered pyinfra
host entry. -/
def hostDataField (entries : List (String × PyVal)) (k : String) : Option PyVal :=
  match dictGet entries "data" with
  | Option.some (PyVal.dict dd) => dictGet dd k
  | _ => Option.none

/-- Spec reading of the generated configure script: the fixed head,
one import line per loaded module in list order, the fixed middle, and
one lifecycle block per module in list order, each block instantiating
the module class and calling pre_configure, configure_server and
post_configure in that order on the host data and project config. -/
def configureScriptSpec (modules : List PyModule) : String :=
  configureScriptHead ++
  strJoin (modules.map moduleImportLine) ++
  configureScriptMid ++
  strJoin (modules.map configureModuleBlock)

/-- Spec reading of the generated deploy script: the fixed head, one
module import line per module in list order, the middle interpolating
the artifact path, and one lifecycle block per module calling pre_deploy,
deploy and post_deploy in that order on the host data, project config
and artifact path. -/
def deployScriptSpec (modules : List PyModule) (artifactPath : String) : String :=
  deployScriptHead ++
  strJoin (modules.map moduleImportLine) ++
  deployScriptMid artifactPath ++
  strJoin (modules.map deployModuleBlock)

/-- Spec reading of the inventory text: exactly one entry per host in
list order, each entry the interpolated mapping that the host
to_pyinfra_host conversion returns. -/
def inventorySpec (hosts : List HostConfig) : String :=
  "hosts = [\n" ++
  strJoin (hosts.map (fun h => "    " ++ pyRepr (PyVal.dict h.to_pyinfra_host) ++ ",\n")) ++
  "]\n"

/-- The operations the compile branch issues on a host where the fact
query finds no installed interpreter: build dependencies, download,
configure and make, altinstall, and source cleanup. -/
def compileFreshOps (version : String) : List Op :=
  [Op.aptPackages "Install Python build dependencies" pythonBuildDeps,
   Op.serverShell ("Download Python " ++ pythonVersionMap version ++ " source")
     ["wget -P /tmp " ++ ("https://www.python.org/ftp/python/" ++ pythonVersionMap version ++
        "/Python-" ++ pythonVersionMap version ++ ".tar.xz"),
      "tar -xf /tmp/Python-" ++ pythonVersionMap version ++ ".tar.xz -C /tmp"] Option.none true,
   Op.serverShell ("Configure and compile Python " ++ pythonVersionMap version)
     ["./configure --enable-optimizations --with-ensurepip=install",
      "make -j$(( $(nproc) > 1 ? $(nproc) - 1 : 1 ))"]
     (Option.some ("/tmp/Python-" ++ pythonVersionMap version)) true,
   Op.serverShell ("Install Python " ++ pythonVersionMap version ++ " using altinstall")
     ["make altinstall"] (Option.some ("/tmp/Python-" ++ pythonVersionMap version)) true,
   Op.serverShell ("Clean up Python " ++ pythonVersionMap version ++ " source files")
     ["rm -f /tmp/Python-" ++ pythonVersionMap version ++ ".tar.xz",
      "rm -rf " ++ ("/tmp/Python-" ++ pythonVersionMap version)] Option.none true]

/-- The single echo operation the compile branch issues on a host where
the fact query locates an already installed interpreter. -/
def alreadyInstalledOp (version : String) : Op :=
  Op.serverShell
    ("Python " ++ pythonVersionMap version ++ " already installed at " ++
      ("/usr/local/bin/python" ++ version))
    ["echo " ++ sq ++ "Python " ++ pythonVersionMap version ++ " already installed." ++ sq]
    Option.none false

/-- A concrete valid configuration used by the witnesses. -/
def exampleConfig : DjaployConfig :=
  { project_name := "proj", project_dir := Option.some "/p",
    djaploy_dir := Option.some "/srv" }

/-- A concrete starting process state used by the witnesses. -/
def exampleState : SysState :=
  ⟨0, [], [], [], "/root"⟩

/-- Spec reading of DjaployConfig validation: one aggregated entry per
required field that is empty or unset, as a function of only the three
fields the spec names. -/
def djaployValidateSpec (project_name app_user : String) (djaploy_dir : Option String) :
    Except String Bool :=
  let entries :=
    (if project_name = "" then ["project_name is required"] else []) ++
    (if app_user = "" then ["app_user is required"] else []) ++
    (if djaploy_dir = Option.none then ["djaploy_dir is required"] else [])
  if entries = [] then Except.ok true
  else Except.error ("Configuration validation failed: " ++ String.intercalate ", " entries)

/-- Spec reading of BackupConfig validation, as a function of only the
transport type and the connection fields the spec names: SFTP needs
host and user, object storage needs endpoint, keys and bucket, and any
other type is rejected. -/
def backupValidateSpec (ty : String)
    (host user s3_endpoint s3_access_key s3_secret_key s3_bucket : Option String) :
    Except String Bool :=
  if ty = "sftp" then
    if optMissing host || optMissing user then
      Except.error "SFTP backup requires host and user"
    else Except.ok true
  else if ty = "s3" then
    if optMissing s3_endpoint || optMissing s3_access_key ||
       optMissing s3_secret_key || optMissing s3_bucket then
      Except.error "S3 backup requires endpoint, access_key, secret_key, and bucket"
    else Except.ok true
  else
    Except.error ("Invalid backup type: " ++ ty)

lemma optMissing_eq_not_truthy (o : Option String) : optMissing o = !pyTruthyStr o := by
  cases o <;> simp [optMissing, pyTruthyStr]

/-- C1: for every DjaployConfig, validate raises a ValueError whose
message aggregates one entry for each of project_name, app_user and
djaploy_dir that is empty or unset and returns True when all three are
present, and no other field affects the outcome (the spec-side function
reads only those three fields).  A djaploy_dir stored by the
constructor is a Path and hence never the empty string, so for that
field empty-or-unset coincides with unset. -/
theorem C1_validate_required_fields :
    (∀ c : DjaployConfig,
      c.validate = djaployValidateSpec c.project_name c.app_user c.djaploy_dir) ∧
    (∀ (pn : String) (pd gd dd mp : Option String) (au su pv : String) (pc : Bool)
       (ms : List String) (mc : List (String × List (String × PyVal))) (ad : String)
       (scp skp : Option String) (sv tsv : List String) (hs : Option (List HostConfig))
       (s : String),
      (mkDjaployConfig pn pd gd dd mp au su pv pc ms mc ad scp skp sv tsv hs).djaploy_dir =
        Option.some s → s ≠ "") := by
  constructor
  · intro c
    simp only [DjaployConfig.validate, djaployValidateSpec]
    rcases hd : c.djaploy_dir with _ | d <;>
      by_cases h1 : c.project_name = "" <;>
      by_cases h2 : c.app_user = "" <;>
      simp [h1, h2, hd]
  · intro pn pd gd dd mp au su pv pc ms mc ad scp skp sv tsv hs s heq
    cases dd with
    | none => simp [mkDjaployConfig] at heq
    | some t =>
      simp only [mkDjaployConfig, Option.map] at heq
      have hst : pathOfString t = s := Option.some.inj heq
      rw [← hst]
      unfold pathOfString
      split
      · simp
      · next h => exact h

/-- C1 witness: the constructor turns a concrete non-None djaploy_dir
argument into a stored path, and that stored path is non-empty. -/
theorem C1_validate_required_fields_witness :
    (mkDjaployConfig "proj" Option.none Option.none (Option.some "/srv/dj") Option.none
        "app" "deploy" "3.11" false [] [] "deployment" Option.none Option.none [] []
        Option.none).djaploy_dir = Option.some "/srv/dj" ∧ ("/srv/dj" : String) ≠ "" :=
  ⟨rfl, C1_validate_required_fields.2 "proj" Option.none Option.none (Option.some "/srv/dj")
    Option.none "app" "deploy" "3.11" false [] [] "deployment" Option.none Option.none [] []
    Option.none "/srv/dj" rfl⟩

/-- C2: BackupConfig validation raises for SFTP without host or user,
raises for object storage missing any of endpoint, access key, secret
key or bucket, rejects every other type, and returns True otherwise;
no other field affects the outcome (the spec-side function reads only
the named fields). -/
theorem C2_backup_validate (b : BackupConfig) :
    b.validate = backupValidateSpec b.type b.host b.user
      b.s3_endpoint b.s3_access_key b.s3_secret_key b.s3_bucket := by
  simp only [BackupConfig.validate, backupValidateSpec, optMissing_eq_not_truthy]
  simp [Bool.not_and, Bool.or_assoc]

lemma occCount_append (m : String) (l1 l2 : List String) :
    occCount m (l1 ++ l2) = occCount m l1 + occCount m l2 := by
  simp [occCount, List.filter_append]

lemma occCount_eq_zero_of_not_mem (m : String) (l : List String) (h : m ∉ l) :
    occCount m l = 0 := by
  simp only [occCount, List.length_eq_zero, List.filter_eq_nil_iff]
  intro a ha
  simp only [beq_iff_eq]
  exact fun he => h (he ▸ ha)

lemma addRequiredModules_eq (ms : List String) (h : HostConfig) :
    addRequiredModules ms h =
      if hostBackupEnabled h then
        (if "djaploy.modules.rclone" ∈ ms then ms else ms ++ ["djaploy.modules.rclone"])
      else ms := by
  unfold addRequiredModules HostConfig.get_required_modules hostBackupEnabled
  rcases h.backup with _ | b
  · simp
  · by_cases hb : b.enabled <;> simp [hb]

lemma foldl_addRequiredModules (hs : List HostConfig) (ms : List String) :
    hs.foldl addRequiredModules ms =
      if "djaploy.modules.rclone" ∈ ms then ms
      else if hs.any hostBackupEnabled then ms ++ ["djaploy.modules.rclone"] else ms := by
  induction hs generalizing ms with
  | nil => by_cases hm : "djaploy.modules.rclone" ∈ ms <;> simp [hm]
  | cons h t ih =>
    simp only [List.foldl_cons, List.any_cons]
    rw [addRequiredModules_eq]
    by_cases hb : hostBackupEnabled h = true
    · by_cases hm : "djaploy.modules.rclone" ∈ ms
      · simp [hb, hm, ih]
      · simp only [hb, if_true, hm, if_false, if_neg hm, ih]
        simp [hm]
    · simp only [hb, if_false, Bool.false_or, ih]
      simp [hb]

/-- C3 counterexample: a config constructed with the rclone module
already in the modules list and with a hosts list in which no host
enables backup.  The module appears in config.modules even though no
host has an enabled backup config, so presence of the module is not
equivalent to some host enabling backup. -/
theorem C3_counterexample :
    ("djaploy.modules.rclone" ∈
      (mkDjaployConfig "proj" Option.none Option.none (Option.some "/srv") Option.none
        "app" "deploy" "3.11" false ["djaploy.modules.rclone"] [] "deployment"
        Option.none Option.none [] []
        (Option.some [{ name := "h1", ssh_host := "203.0.113.5" }])).modules) ∧
    ([({ name := "h1", ssh_host := "203.0.113.5" } : HostConfig)].any hostBackupEnabled = false) := by
  constructor
  · decide
  · decide

/-- C3 amended: after construction with a hosts list, the rclone module
is in config.modules exactly when some host has an enabled backup
config or the module was already in the given modules list; when it was
not already present it is appended exactly once however many hosts
enable backup, and when it was already present the original occurrences
are kept unchanged. -/
theorem C3_rclone_module_amended (pn : String) (pd gd dd mp : Option String)
    (au su pv : String) (pc : Bool) (ms : List String)
    (mc : List (String × List (String × PyVal))) (ad : String)
    (scp skp : Option String) (sv tsv : List String) (hs : List HostConfig) :
    ("djaploy.modules.rclone" ∈
        (mkDjaployConfig pn pd gd dd mp au su pv pc ms mc ad scp skp sv tsv
          (Option.some hs)).modules ↔
      ("djaploy.modules.rclone" ∈ ms ∨ hs.any hostBackupEnabled = true)) ∧
    (occCount "djaploy.modules.rclone"
        (mkDjaployConfig pn pd gd dd mp au su pv pc ms mc ad scp skp sv tsv
          (Option.some hs)).modules =
      if "djaploy.modules.rclone" ∈ ms then occCount "djaploy.modules.rclone" ms
      else if hs.any hostBackupEnabled then 1 else 0) := by
  simp only [mkDjaployConfig, postInitModules]
  rw [foldl_addRequiredModules]
  by_cases hm : "djaploy.modules.rclone" ∈ ms
  · simp [hm]
  · by_cases ha : hs.any hostBackupEnabled = true
    · simp only [hm, if_false, ha, if_true]
      constructor
      · simp [hm, ha]
      · rw [occCount_append, occCount_eq_zero_of_not_mem _ _ hm]
        simp [occCount]
    · simp only [hm, if_false, ha, if_false]
      constructor
      · simp [hm, ha]
      · simp [occCount_eq_zero_of_not_mem _ _ hm]

lemma orOpt_none_right (a : Option PyVal) : orOpt a Option.none = a := by
  cases a <;> rfl

lemma dictGet_append (l1 l2 : List (String × PyVal)) (k : String) :
    dictGet (l1 ++ l2) k = orOpt (dictGet l1 k) (dictGet l2 k) := by
  induction l1 with
  | nil => simp [dictGet, orOpt]
  | cons p t ih =>
    by_cases hp : p.1 = k <;> simp [dictGet, hp, ih, orOpt]

lemma dictGet_dictInsert (d : List (String × PyVal)) (k : String) (v : PyVal) (k' : String) :
    dictGet (dictInsert d k v) k' = if k' = k then Option.some v else dictGet d k' := by
  induction d with
  | nil =>
    by_cases hk : k' = k
    · subst hk
      simp [dictInsert, dictGet]
    · have hb : ¬k = k' := fun he => hk he.symm
      simp [dictInsert, dictGet, hk, hb]
  | cons p t ih =>
    by_cases hp : p.1 = k
    · simp only [dictInsert, if_pos hp]
      by_cases hk : k' = k
      · subst hk
        simp [dictGet]
      · have hb1 : ¬k = k' := fun he => hk he.symm
        have hb2 : ¬p.1 = k' := fun he => hk (hp.symm.trans he).symm
        simp only [dictGet, if_neg hb1, if_neg hk, if_neg hb2]
    · simp only [dictInsert, if_neg hp]
      by_cases hk : k' = k
      · subst hk
        simp only [dictGet, if_neg hp, ih, if_pos rfl]
      · simp only [dictGet, ih, if_neg hk]

lemma dictGet_foldl_insert (l : List (String × PyVal)) (d : List (String × PyVal)) (k : String) :
    dictGet (l.foldl (fun acc p => dictInsert acc p.1 p.2) d) k =
      orOpt (dictGet l.reverse k) (dictGet d k) := by
  induction l generalizing d with
  | nil => simp [dictGet, orOpt]
  | cons p t ih =>
    rw [List.foldl_cons, ih, List.reverse_cons, dictGet_append]
    cases hf : dictGet t.reverse k with
    | some q => simp [orOpt]
    | none =>
      rw [dictGet_dictInsert]
      by_cases hk : k = p.1
      · simp [orOpt, dictGet, hk]
      · have hb : ¬p.1 = k := fun he => hk he.symm
        simp [orOpt, dictGet, hk, hb]

lemma dictGet_eq_none_of_not_mem (l : List (String × PyVal)) (k : String)
    (h : k ∉ l.map Prod.fst) : dictGet l k = Option.none := by
  induction l with
  | nil => rfl
  | cons p t ih =>
    simp only [List.map_cons, List.mem_cons, not_or] at h
    have hp : ¬p.1 = k := fun he => h.1 (he ▸ rfl)
    simp [dictGet, hp, ih h.2]

lemma dictGet_reverse_of_nodup (l : List (String × PyVal)) (k : String)
    (hnd : (l.map Prod.fst).Nodup) : dictGet l.reverse k = dictGet l k := by
  induction l with
  | nil => rfl
  | cons p t ih =>
    rw [List.map_cons, List.nodup_cons] at hnd
    rw [List.reverse_cons, dictGet_append, ih hnd.2]
    by_cases hp : p.1 = k
    · have hkt : dictGet t k = Option.none :=
        dictGet_eq_none_of_not_mem t k (hp ▸ hnd.1)
      simp [dictGet, hp, hkt, orOpt]
    · simp only [dictGet, hp, if_neg hp]
      cases ht : dictGet t k <;> simp [orOpt, dictGet, hp]

/-- C9: a free-form data entry whose key collides with a built-in data
field wins, because the data entries are splatted last into the data
dict of to_pyinfra_host. -/
theorem C9_data_overrides_builtins (h : HostConfig) (k : String) (v : PyVal)
    (hnd : (h.data.map Prod.fst).Nodup) (hv : dictGet h.data k = Option.some v) :
    dictGet h.pyinfraHostData k = Option.some v := by
  unfold HostConfig.pyinfraHostData dictLit
  rw [List.foldl_append, dictGet_foldl_insert, dictGet_reverse_of_nodup h.data k hnd, hv]
  rfl

/-- C9 witness: a host whose data bag overrides the built-in app_user
field; the rendered data dict carries the override. -/
theorem C9_data_overrides_builtins_witness :
    (([("app_user", PyVal.str "override")] : List (String × PyVal)).map Prod.fst).Nodup ∧
    dictGet [("app_user", PyVal.str "override")] "app_user" = Option.some (PyVal.str "override") ∧
    dictGet (HostConfig.pyinfraHostData
      { name := "h1", ssh_host := "203.0.113.5", data := [("app_user", PyVal.str "override")] })
      "app_user" = Option.some (PyVal.str "override") :=
  ⟨by simp, rfl,
   C9_data_overrides_builtins
     { name := "h1", ssh_host := "203.0.113.5", data := [("app_user", PyVal.str "override")] }
     "app_user" (PyVal.str "override") (by simp) rfl⟩

lemma foldl_append_eq_strJoin {α : Type} (f : α → String) (l : List α) (s : String) :
    l.foldl (fun acc x => acc ++ f x) s = s ++ strJoin (l.map f) := by
  induction l generalizing s with
  | nil => simp [strJoin]
  | cons x t ih => simp [List.foldl_cons, List.map_cons, strJoin, ih, String.append_assoc]

/-- C4 counterexample: a host whose app_hostname is the empty string.
The code falls back to ssh_host for the app_hostname data entry, while
the claim, whose fallback condition is app_hostname being None, keeps
the empty string.  The two readings disagree on this host. -/
theorem C4_counterexample :
    hostDataField
      (HostConfig.to_pyinfra_host { name := "web", ssh_host := "203.0.113.5", app_hostname := Option.some "" })
      "app_hostname" = Option.some (PyVal.str "203.0.113.5") ∧
    hostDataField
      (toPyinfraHostNoneFallback { name := "web", ssh_host := "203.0.113.5", app_hostname := Option.some "" })
      "app_hostname" = Option.some (PyVal.str "") ∧
    ("203.0.113.5" : String) ≠ "" :=
  ⟨rfl, rfl, by decide⟩

/-- C4 amended: the inventory text has exactly one entry per host in
list order, each the interpolated mapping of to_pyinfra_host, and
to_pyinfra_host carries name, ssh_host, ssh_user and ssh_port at top
level and a data dict of app_user, app_hostname (falling back to
ssh_host when app_hostname is None or empty), env, services,
timer_services, domains, serialized backup or None, and the splatted
free-form data entries. -/
theorem C4_inventory_amended :
    (∀ hosts : List HostConfig, createInventory hosts = inventorySpec hosts) ∧
    (∀ h : HostConfig, h.to_pyinfra_host = toPyinfraHostSpec h) := by
  constructor
  · intro hosts
    simp only [createInventory, inventorySpec]
    rw [foldl_append_eq_strJoin]
  · intro h
    unfold HostConfig.to_pyinfra_host HostConfig.pyinfraHostData toPyinfraHostSpec
    have hor : pyOrStr h.app_hostname h.ssh_host =
        (match h.app_hostname with
         | Option.none => h.ssh_host
         | Option.some a => if a = "" then h.ssh_host else a) := by
      cases h.app_hostname with
      | none => rfl
      | some a =>
        by_cases ha : a = ""
        · simp [pyOrStr, ha]
        · simp [pyOrStr, ha]
    rw [hor]

/-- C5: the generated configure script is the fixed head, one import
line per loaded module, the fixed middle, then per module in list order
a block instantiating the module class and calling pre_configure,
configure_server and post_configure on the host data and project
config; the generated deploy script likewise imports every module and
calls pre_deploy, deploy and post_deploy per module in order, each call
also receiving the artifact path. -/
theorem C5_generated_scripts (config : DjaployConfig) (hosts : List HostConfig)
    (modules : List PyModule) (artifactPath : String) :
    generateConfigureScript config hosts modules = configureScriptSpec modules ∧
    generateDeployScript config hosts modules artifactPath = deployScriptSpec modules artifactPath := by
  constructor
  · unfold generateConfigureScript configureScriptSpec
    rw [foldl_append_eq_strJoin, foldl_append_eq_strJoin]
  · unfold generateDeployScript deployScriptSpec
    rw [foldl_append_eq_strJoin, foldl_append_eq_strJoin]

lemma erase_append_singleton (l : List String) (a : String) (h : a ∉ l) :
    (l ++ [a]).erase a = l := by
  rw [List.erase_append_right _ h]
  simp

lemma runPyinfra_state (scriptPath : String) (hosts : List HostConfig) (exitCode : Nat)
    (s : SysState) (h : tmpName s.tempCounter ∉ s.tempFiles) :
    (runPyinfra scriptPath hosts exitCode s).2.tempFiles = s.tempFiles ∧
    (runPyinfra scriptPath hosts exitCode s).2.cwd = s.cwd := by
  unfold runPyinfra newTempFile runSubprocess unlink
  by_cases he : exitCode = 0 <;> simp [he, erase_append_singleton _ _ h]

lemma runPrepare_state (prepareScript : String) (config : DjaployConfig) (prepareExit : Nat)
    (s : SysState) :
    (runPrepare prepareScript config prepareExit s).2.tempFiles = s.tempFiles ∧
    (runPrepare prepareScript config prepareExit s).2.tempCounter = s.tempCounter ∧
    (runPrepare prepareScript config prepareExit s).2.cwd = s.cwd := by
  unfold runPrepare runSubprocess
  cases config.project_dir <;> by_cases he : prepareExit = 0 <;> simp [he]

lemma deployRunPhase_state (config : DjaployConfig) (hosts : List HostConfig)
    (modules : List PyModule) (artifactPath : String) (pyinfraExit : Nat)
    (s : SysState) (hf : tmpFresh s) :
    (deployRunPhase config hosts modules artifactPath pyinfraExit s).2.tempFiles = s.tempFiles ∧
    (deployRunPhase config hosts modules artifactPath pyinfraExit s).2.cwd = s.cwd := by
  obtain ⟨h1, h2⟩ := hf
  unfold deployRunPhase newTempFile unlink
  have hrun := runPyinfra_state (tmpName s.tempCounter) hosts pyinfraExit
    { s with tempCounter := s.tempCounter + 1,
             tempFiles := s.tempFiles ++ [tmpName s.tempCounter],
             fileWrites := s.fileWrites ++
               [(tmpName s.tempCounter, generateDeployScript config hosts modules artifactPath)] }
    h2
  simp only [hrun.1, hrun.2]
  simp [erase_append_singleton _ _ h1, hrun.1, hrun.2]

/-- C6: both entry points remove the temporary script file and the
temporary inventory file before returning, whether the pyinfra
subprocess exits zero or non-zero and whether an earlier step raised:
after either call the set of temporary files on disk is what it was
before the call. -/
theorem C6_temp_files_removed (config : DjaployConfig) (hosts : List HostConfig)
    (artifactResult : Except PyErr String) (loadResult : Except PyErr (List PyModule))
    (prepareExists : Bool) (prepareExit pyinfraExit : Nat) (s : SysState)
    (hf : tmpFresh s) :
    (configureServer config hosts loadResult pyinfraExit s).2.tempFiles = s.tempFiles ∧
    (deployProject config hosts artifactResult loadResult prepareExists prepareExit
      pyinfraExit s).2.tempFiles = s.tempFiles := by
  obtain ⟨h1, h2⟩ := hf
  constructor
  · unfold configureServer
    cases config.validate with
    | error e => rfl
    | ok b =>
      cases loadResult with
      | error e => rfl
      | ok modules =>
        simp only [newTempFile, unlink]
        have hrun := runPyinfra_state (tmpName s.tempCounter) hosts pyinfraExit
          { s with tempCounter := s.tempCounter + 1,
                   tempFiles := s.tempFiles ++ [tmpName s.tempCounter],
                   fileWrites := s.fileWrites ++
                     [(tmpName s.tempCounter, generateConfigureScript config hosts modules)] }
          h2
        simp [hrun.1, erase_append_singleton _ _ h1]
  · unfold deployProject
    cases config.validate with
    | error e => rfl
    | ok b =>
      cases artifactResult with
      | error e => rfl
      | ok artifactPath =>
        cases loadResult with
        | error e => rfl
        | ok modules =>
          cases hpd : config.project_dir with
          | none => rfl
          | some pdir =>
            by_cases hpe : prepareExists
            · simp only [hpe, if_true]
              have hprep := runPrepare_state (pdir ++ "/prepare.py") config prepareExit s
              cases hr : (runPrepare (pdir ++ "/prepare.py") config prepareExit s).1 with
              | error e =>
                simp [hr, hprep.1]
              | ok u =>
                have hfresh : tmpFresh (runPrepare (pdir ++ "/prepare.py") config prepareExit s).2 := by
                  constructor
                  · rw [hprep.1, hprep.2.1]
                    exact h1
                  · rw [hprep.1, hprep.2.1]
                    exact h2
                have hphase := deployRunPhase_state config hosts modules artifactPath pyinfraExit
                  (runPrepare (pdir ++ "/prepare.py") config prepareExit s).2 hfresh
                simp [hr, hphase.1, hprep.1]
            · simp only [hpe, if_false]
              exact (deployRunPhase_state config hosts modules artifactPath pyinfraExit s
                ⟨h1, h2⟩).1

/-- C6 witness: a concrete fresh state with a valid config, a failing
prepare script and a failing pyinfra run; both entry points leave the
temporary file set empty, as it was before. -/
theorem C6_temp_files_removed_witness :
    tmpFresh exampleState ∧
    (configureServer exampleConfig [] (Except.ok []) 1 exampleState).2.tempFiles = [] ∧
    (deployProject exampleConfig [] (Except.ok "/tmp/art.tar") (Except.ok [])
      true 1 1 exampleState).2.tempFiles = [] :=
  ⟨by constructor <;> decide,
   (C6_temp_files_removed exampleConfig [] (Except.ok "/tmp/art.tar") (Except.ok [])
      true 1 1 exampleState (by constructor <;> decide)).1,
   (C6_temp_files_removed exampleConfig [] (Except.ok "/tmp/art.tar") (Except.ok [])
      true 1 1 exampleState (by constructor <;> decide)).2⟩

/-- C7: the runner invokes the external CLI as the four-element command
pyinfra, inventory path, script path, auto-confirm flag, and it raises
a CalledProcessError exactly when the subprocess exit status is
non-zero, returning normally on a zero exit. -/
theorem C7_pyinfra_invocation (scriptPath : String) (hosts : List HostConfig)
    (exitCode : Nat) (s : SysState) :
    ((runPyinfra scriptPath hosts exitCode s).2.commands =
      s.commands ++ [["pyinfra", tmpName s.tempCounter, scriptPath, "-y"]]) ∧
    ((runPyinfra scriptPath hosts exitCode s).1 = Except.ok () ↔ exitCode = 0) ∧
    ((runPyinfra scriptPath hosts exitCode s).1 =
        Except.error (PyErr.calledProcessError exitCode
          ["pyinfra", tmpName s.tempCounter, scriptPath, "-y"]) ↔ ¬exitCode = 0) := by
  unfold runPyinfra newTempFile runSubprocess unlink
  by_cases he : exitCode = 0 <;> simp [he]

/-- C8: the core module installs the interpreter through the package
manager when python compile is false or absent and compiles from source
when it is true; in the compile branch the build-dependency, download,
configure-and-make, altinstall and cleanup steps are issued only when
the remote Which fact query on the install path returns nothing, and
otherwise only a single echo command is issued. -/
theorem C8_python_install_branching (project_config : PyProjectConfig)
    (whichFact : String → Option String) (version : String) :
    (project_config.python_compile.getD false = false →
      installPython project_config whichFact =
        [Op.aptPackages ("Install Python " ++ project_config.python_version)
          ["python" ++ project_config.python_version,
           "python" ++ project_config.python_version ++ "-dev",
           "python" ++ project_config.python_version ++ "-venv",
           "python3-pip"]]) ∧
    (project_config.python_compile.getD false = true →
      installPython project_config whichFact =
        compilePython project_config.python_version whichFact) ∧
    (whichFact (pythonInstallPath version) = Option.none →
      compilePython version whichFact = compileFreshOps version) ∧
    (∀ p, whichFact (pythonInstallPath version) = Option.some p →
      compilePython version whichFact = [alreadyInstalledOp version]) := by
  refine ⟨?_, ?_, ?_, ?_⟩
  · intro h
    unfold installPython
    rw [h]
    simp
  · intro h
    unfold installPython
    rw [h]
    simp
  · intro h
    unfold pythonInstallPath at h
    simp only [compilePython]
    rw [h]
    rfl
  · intro p h
    unfold pythonInstallPath at h
    simp only [compilePython]
    rw [h]
    rfl

/-- C8 witness: concrete instances of all four branches, at version
3.11, an absent and a present compile flag, and a fact query that
misses respectively hits the install path. -/
theorem C8_python_install_branching_witness :
    (installPython ⟨"3.11", Option.none⟩ (fun _ => Option.none) =
      [Op.aptPackages ("Install Python " ++ "3.11")
        ["python" ++ "3.11", "python" ++ "3.11" ++ "-dev",
         "python" ++ "3.11" ++ "-venv", "python3-pip"]]) ∧
    (installPython ⟨"3.11", Option.some true⟩ (fun _ => Option.none) =
      compilePython "3.11" (fun _ => Option.none)) ∧
    (compilePython "3.11" (fun _ => Option.none) = compileFreshOps "3.11") ∧
    (compilePython "3.11" (fun _ => Option.some "/usr/local/bin/python3.11") =
      [alreadyInstalledOp "3.11"]) :=
  ⟨(C8_python_install_branching ⟨"3.11", Option.none⟩ (fun _ => Option.none) "3.11").1 rfl,
   (C8_python_install_branching ⟨"3.11", Option.some true⟩ (fun _ => Option.none) "3.11").2.1 rfl,
   (C8_python_install_branching ⟨"3.11", Option.none⟩ (fun _ => Option.none) "3.11").2.2.1 rfl,
   (C8_python_install_branching ⟨"3.11", Option.none⟩
      (fun _ => Option.some "/usr/local/bin/python3.11") "3.11").2.2.2
      "/usr/local/bin/python3.11" rfl⟩

/-- C10: the prepare step restores the process working directory before
returning, both when the prepare subprocess succeeds and when it exits
non-zero, and a whole deploy-project invocation likewise leaves the
working directory unchanged. -/
theorem C10_prepare_restores_cwd (prepareScript : String) (config : DjaployConfig)
    (hosts : List HostConfig) (artifactResult : Except PyErr String)
    (loadResult : Except PyErr (List PyModule)) (prepareExists : Bool)
    (prepareExit pyinfraExit : Nat) (s : SysState) (hf : tmpFresh s) :
    ((runPrepare prepareScript config prepareExit s).2.cwd = s.cwd) ∧
    ((deployProject config hosts artifactResult loadResult prepareExists prepareExit
        pyinfraExit s).2.cwd = s.cwd) := by
  obtain ⟨h1, h2⟩ := hf
  constructor
  · exact (runPrepare_state prepareScript config prepareExit s).2.2
  · unfold deployProject
    cases config.validate with
    | error e => rfl
    | ok b =>
      cases artifactResult with
      | error e => rfl
      | ok artifactPath =>
        cases loadResult with
        | error e => rfl
        | ok modules =>
          cases hpd : config.project_dir with
          | none => rfl
          | some pdir =>
            by_cases hpe : prepareExists
            · simp only [hpe, if_true]
              have hprep := runPrepare_state (pdir ++ "/prepare.py") config prepareExit s
              cases hr : (runPrepare (pdir ++ "/prepare.py") config prepareExit s).1 with
              | error e =>
                simp [hr, hprep.2.2]
              | ok u =>
                have hfresh : tmpFresh (runPrepare (pdir ++ "/prepare.py") config prepareExit s).2 := by
                  constructor
                  · rw [hprep.1, hprep.2.1]
                    exact h1
                  · rw [hprep.1, hprep.2.1]
                    exact h2
                have hphase := deployRunPhase_state config hosts modules artifactPath pyinfraExit
                  (runPrepare (pdir ++ "/prepare.py") config prepareExit s).2 hfresh
                simp [hr, hphase.2, hprep.2.2]
            · simp only [hpe, if_false]
              exact (deployRunPhase_state config hosts modules artifactPath pyinfraExit s
                ⟨h1, h2⟩).2

/-- C10 witness: at a concrete state and a failing prepare subprocess,
the working directory after the prepare step and after a whole deploy
run equals the starting directory. -/
theorem C10_prepare_restores_cwd_witness :
    tmpFresh exampleState ∧
    (runPrepare "/p/prepare.py" exampleConfig 1 exampleState).2.cwd = "/root" ∧
    (deployProject exampleConfig [] (Except.ok "/tmp/art.tar") (Except.ok [])
      true 1 0 exampleState).2.cwd = "/root" :=
  ⟨by constructor <;> decide,
   (C10_prepare_restores_cwd "/p/prepare.py" exampleConfig []
      (Except.ok "/tmp/art.tar") (Except.ok []) true 1 0 exampleState
      (by constructor <;> decide)).1,
   (C10_prepare_restores_cwd "/p/prepare.py" exampleConfig []
      (Except.ok "/tmp/art.tar") (Except.ok []) true 1 0 exampleState
      (by constructor <;> decide)).2⟩

end Djaploy
